import Mathlib

/-!
Verification of src/dnsmasq_interface.c (FTL engine, dnsmasq interfacing
routines): a shallow embedding of the event handlers and the shared global
state they maintain, followed by theorems about the handlers.

Modelling conventions:
* Machine integers that are only counted up/down are modelled as `Int`
  (C `int` counters); indices and enum codes as `Nat`.
* C strings are Lean `String`s; `strtolower` maps ASCII lowercasing,
  `strcmp(a,b) == 0` is `a == b`, `strstr` is infix search.
* External collaborators that live in other files of the repository
  (gettimestamp/findOverTimeID, inet_ntop, findDomainID, findClientID,
  findForwardID, detectStatus, readWildcardsList, logging,
  memory_check/validate_access) are supplied as oracle parameters or are
  no-ops on the modelled state; each use is noted at the definition.
* The global arrays `queries`, `overTime`, `domains` and the `counters`
  struct form the `State`.  `queries[counters.queries] = ...` followed by
  `counters.queries++` is modelled as appending to the list of records.
* The coarse thread lock is observed through a trace of primitive actions
  (`Act.lock` for enable_thread_lock, `Act.unlock` for disable_thread_lock,
  one `Act.write` per C statement that mutates shared state); every handler
  returns its post-state together with its action trace.
-/

/-- Modelled from the spec: query-type codes declared in FTL.h (not under
src/); §3 lists the recognised types.  Only distinctness of the values
matters to the code in src/. -/
def TYPE_A : Nat := 1

def TYPE_AAAA : Nat := 2

def TYPE_ANY : Nat := 3

def TYPE_SRV : Nat := 4

def TYPE_SOA : Nat := 5

def TYPE_PTR : Nat := 6

def TYPE_TXT : Nat := 7

/-- Modelled from the spec: query status codes declared in FTL.h (not under
src/); §3/§4.3 list states UNKNOWN, FORWARDED, CACHE, GRAVITY_BLOCKED,
BLACKLIST_BLOCKED, WILDCARD_BLOCKED.  Only distinctness matters. -/
def QUERY_UNKNOWN : Nat := 0

def QUERY_GRAVITY : Nat := 1

def QUERY_FORWARDED : Nat := 2

def QUERY_CACHE : Nat := 3

def QUERY_WILDCARD : Nat := 4

def QUERY_BLACKLIST : Nat := 5

/-- Modelled from the spec: reply classification codes declared in FTL.h
(not under src/); §4.4 lists NXDOMAIN, NODATA, CNAME, IP. -/
def REPLY_UNKNOWN : Nat := 0

def REPLY_NODATA : Nat := 1

def REPLY_NXDOMAIN : Nat := 2

def REPLY_CNAME : Nat := 3

def REPLY_IP : Nat := 4

/-- Modelled from the spec: DNSSEC result codes declared in FTL.h (not under
src/); §3 lists UNKNOWN, SECURE, INSECURE, BOGUS. -/
def DNSSEC_UNKNOWN : Nat := 0

def DNSSEC_SECURE : Nat := 1

def DNSSEC_INSECURE : Nat := 2

def DNSSEC_BOGUS : Nat := 3

/-- Modelled from the spec: dnsmasq DNSSEC status codes (dnsmasq.h, not
under src/); only distinctness matters to FTL_dnssec. -/
def STAT_SECURE : Int := 1

def STAT_INSECURE : Int := 2

/-- Modelled from the spec: privacy-level thresholds declared in FTL.h (not
under src/); §4.3 describes two increasing thresholds (redact domain,
additionally redact client) plus a maximum level. -/
def PRIVACY_HIDE_DOMAINS : Nat := 1

def PRIVACY_HIDE_DOMAINS_CLIENTS : Nat := 2

def PRIVACY_MAXIMUM : Nat := 3

/-- Modelled from the spec: the record magic byte declared in FTL.h (not
under src/); its concrete value is immaterial to the claims. -/
def MAGICBYTE : Nat := 87

/-- Flag bit positions, as fixed by the `flagnames` table at line 20 of
src/dnsmasq_interface.c (bit i of the flag word is named flagnames[i]). -/
def F_IMMORTAL : Nat := 1 <<< 0

def F_NAMEP : Nat := 1 <<< 1

def F_REVERSE : Nat := 1 <<< 2

def F_FORWARD : Nat := 1 <<< 3

def F_DHCP : Nat := 1 <<< 4

def F_NEG : Nat := 1 <<< 5

def F_HOSTS : Nat := 1 <<< 6

def F_IPV4 : Nat := 1 <<< 7

def F_IPV6 : Nat := 1 <<< 8

def F_NXDOMAIN : Nat := 1 <<< 10

def F_CNAME : Nat := 1 <<< 11

def F_CONFIG : Nat := 1 <<< 13

/-- The `flagnames` array (line 20 of src/dnsmasq_interface.c): 28 entries,
one per flag bit, in bit order. -/
def flagnames : List String :=
  ["F_IMMORTAL ", "F_NAMEP ", "F_REVERSE ", "F_FORWARD ", "F_DHCP ", "F_NEG ",
   "F_HOSTS ", "F_IPV4 ", "F_IPV6 ", "F_BIGNAME ", "F_NXDOMAIN ", "F_CNAME ",
   "F_DNSKEY ", "F_CONFIG ", "F_DS ", "F_DNSSECOK ", "F_UPSTREAM ", "F_RRNAME ",
   "F_SERVER ", "F_QUERY ", "F_NOERR ", "F_AUTH ", "F_DNSSEC ", "F_KEYTAG ",
   "F_SECSTAT ", "F_NO_RR ", "F_IPSET ", "F_NOEXTRA "]

/-- One record of the global `queries` array (fields written by
FTL_new_query, lines 131–142).  The C field `private` is a Lean keyword and
is rendered `privacy`; `forwardID` is uninitialised in C until
FTL_forwarded sets it, modelled as starting at 0. -/
structure queriesData where
  magic : Nat
  timestamp : Int
  type : Nat
  status : Nat
  domainID : Nat
  clientID : Nat
  timeidx : Nat
  db : Bool
  id : Int
  complete : Bool
  privacy : Bool
  ttl : Nat
  forwardID : Int
  deriving Inhabited, DecidableEq, Repr

/-- One record of the global `domains` array (fields touched in
src/dnsmasq_interface.c: reply[2] and the per-domain aggregates).
`reply` is the two-slot last-classification array, modelled as a total
function from the slot index. -/
structure domainsData where
  domain : String
  blockedcount : Int
  wildcard : Bool
  dnssec : Nat
  reply : Nat → Nat
  IPv4 : Option String
  IPv6 : Option String

/-- One bucket of the global `overTime` array.  The per-type and per-client
arrays are modelled as total functions from the index. -/
structure overTimeData where
  total : Int
  blocked : Int
  cached : Int
  querytypedata : Nat → Int
  clientdata : Nat → Int

/-- The global `counters` struct (the fields touched in
src/dnsmasq_interface.c). -/
structure countersStruct where
  queries : Int
  blocked : Int
  wildcardblocked : Int
  cached : Int
  unknown : Int
  forwardedqueries : Int
  gravity : Int
  querytype : Nat → Int
  reply_NODATA : Int
  reply_NXDOMAIN : Int
  reply_CNAME : Int
  reply_IP : Int

/-- The configuration fields read in src/dnsmasq_interface.c. -/
structure Config where
  analyze_AAAA : Bool
  privacylevel : Nat

/-- The whole shared mutable state guarded by the thread lock. -/
structure State where
  counters : countersStruct
  queries : List queriesData
  overTime : Nat → overTimeData
  domains : Nat → domainsData

/-- Primitive actions observed on the shared state: lock acquisition
(enable_thread_lock), release (disable_thread_lock), and one `write` per C
statement that mutates shared state. -/
inductive Act where
  | lock
  | unlock
  | write
  deriving DecidableEq, Repr

/-- Pointwise update of a function-modelled array at one index. -/
def updAt {α : Type} (f : Nat → α) (k : Nat) (g : α → α) : Nat → α :=
  fun x => if x = k then g (f k) else f x

/-- The strtolower collaborator (defined in another file of the
repository): ASCII-lowercases every character of the string in place. -/
def strtolower (s : String) : String :=
  String.mk (s.data.map Char.toLower)

/-- C `strstr(hay, needle) != NULL` (substring search). -/
def strstrB (hay needle : String) : Bool :=
  decide (List.IsInfix needle.toList hay.toList)

/-- The query-type label dispatch of FTL_new_query (src/dnsmasq_interface.c
lines 81–103): `none` is the unrecognised-label early return. -/
def parse_querytype (types : String) : Option Nat :=
  if types == "query[A]" then some TYPE_A
  else if types == "query[AAAA]" then some TYPE_AAAA
  else if types == "query[ANY]" then some TYPE_ANY
  else if types == "query[SRV]" then some TYPE_SRV
  else if types == "query[SOA]" then some TYPE_SOA
  else if types == "query[PTR]" then some TYPE_PTR
  else if types == "query[TXT]" then some TYPE_TXT
  else none

/-- Embedding of FTL_new_query (src/dnsmasq_interface.c lines 22–162).
Oracle parameters stand for external collaborators: `clientIP` is the
inet_ntop rendering of `addr` (line 65), `querytimestamp`/`timeidx` come
from gettimestamp/findOverTimeID (lines 28, 40), `domainID`/`clientID` from
findDomainID/findClientID (lines 122, 127).  Writing the new record at
index counters.queries (lines 130–142) is modelled as appending it to the
record list. -/
def FTL_new_query (cfg : Config) (flags : Nat) (name clientIP types : String)
    (id : Int) (querytimestamp : Int) (timeidx domainID clientID : Nat)
    (s : State) : State × List Act :=
  if !cfg.analyze_AAAA && types == " query[AAAA]" then
    (s, [.lock, .unlock])
  else
    let domain := strtolower name
    if domain == "pi.hole" then
      (s, [.lock, .unlock])
    else
      match parse_querytype types with
      | none => (s, [.lock, .unlock])
      | some querytype =>
        let s := { s with
          overTime := updAt s.overTime timeidx (fun b =>
            { b with querytypedata := updAt b.querytypedata (querytype - 1) (· + 1) }),
          counters := { s.counters with
            querytype := updAt s.counters.querytype (querytype - 1) (· + 1) } }
        if querytype != TYPE_A && querytype != TYPE_AAAA then
          (s, [.lock, .write, .write, .unlock])
        else
          let newq : queriesData :=
            { magic := MAGICBYTE
              timestamp := querytimestamp
              type := querytype
              status := QUERY_UNKNOWN
              domainID := domainID
              clientID := clientID
              timeidx := timeidx
              db := false
              id := id
              complete := false
              privacy := cfg.privacylevel == PRIVACY_MAXIMUM
              ttl := 0
              forwardID := 0 }
          let s := { s with
            queries := s.queries ++ [newq],
            counters := { s.counters with
              queries := s.counters.queries + 1,
              unknown := s.counters.unknown + 1 },
            overTime := updAt s.overTime timeidx (fun b =>
              { b with total := b.total + 1,
                       clientdata := updAt b.clientdata clientID (· + 1) }) }
          (s, [.lock, .write, .write, .write, .write, .write, .write, .write, .unlock])

/-- Post-loop portion of FTL_forwarded (src/dnsmasq_interface.c lines
213–238): `q` is the matched record as already stored at index `i` of
`s.queries` by the loop body; `forwardOracle` is the result of the external
findForwardID (line 223); `preActs` are the write actions the loop body
already performed. -/
def FTL_forwarded_tail (i : Nat) (q : queriesData) (forwardOracle : Int)
    (preActs : List Act) (s : State) : State × List Act :=
  if q.complete then
    (s, [.lock] ++ preActs ++ [.unlock])
  else
    let q2 : queriesData := { q with forwardID := forwardOracle }
    let s2 : State := { s with queries := s.queries.set i q2 }
    if !q2.complete then
      ({ s2 with
          counters := { s2.counters with
            unknown := s2.counters.unknown - 1,
            forwardedqueries := s2.counters.forwardedqueries + 1 },
          queries := s2.queries.set i { q2 with complete := true } },
       [.lock] ++ preActs ++ [.write, .write, .write, .write, .unlock])
    else
      (s2, [.lock] ++ preActs ++ [.write, .unlock])

/-- Embedding of FTL_forwarded (src/dnsmasq_interface.c lines 164–239).
`forwardIP` is the inet_ntop rendering of `addr` (line 169);
`forwardOracle` is the result of the external findForwardID (line 223).
The C loop (lines 180–203) scans forward from index 0 and breaks at the
first record whose `id` matches, mutating that record in place; it is
modelled by `List.findIdx` followed by a pointwise `List.set`. -/
def FTL_forwarded (flags : Nat) (name forwardIP : String) (id : Int)
    (forwardOracle : Int) (s : State) : State × List Act :=
  let i := s.queries.findIdx (fun q => q.id == id)
  if i < s.queries.length then
    let q := s.queries.getD i default
    if q.status == QUERY_CACHE then
      let q1 : queriesData := { q with complete := false, status := QUERY_FORWARDED }
      let s1 : State := { s with
        counters := { s.counters with
          cached := s.counters.cached - 1,
          unknown := s.counters.unknown + 1 },
        overTime := updAt s.overTime q.timeidx (fun b => { b with cached := b.cached - 1 }),
        queries := s.queries.set i q1 }
      FTL_forwarded_tail i q1 forwardOracle [.write, .write, .write, .write, .write] s1
    else
      let q1 : queriesData := { q with status := QUERY_FORWARDED }
      FTL_forwarded_tail i q1 forwardOracle [.write]
        { s with queries := s.queries.set i q1 }
  else
    (s, [.lock, .unlock])

/-- Embedding of FTL_dnsmasq_reload (src/dnsmasq_interface.c lines
241–247).  Note: the C function does not call enable_thread_lock /
disable_thread_lock; readWildcardsList is external and does not touch the
modelled state. -/
def FTL_dnsmasq_reload (s : State) : State × List Act :=
  ({ s with counters := { s.counters with gravity := 0 } }, [.write])

/-- Embedding of FTL_read_hosts (src/dnsmasq_interface.c lines 249–260). -/
def FTL_read_hosts (filename : Option String) (addr_count : Int)
    (s : State) : State × List Act :=
  match filename with
  | some fn =>
    if strstrB fn "/gravity.list" || strstrB fn "/black.list" then
      ({ s with counters := { s.counters with gravity := s.counters.gravity + addr_count } },
       [.lock, .write, .unlock])
    else
      (s, [.lock, .unlock])
  | none => (s, [.lock, .unlock])

/-- Embedding of save_reply_type (src/dnsmasq_interface.c lines 642–676).
Reads queries[queryID] (out-of-range reads would abort in C via
validate_access; modelled with `getD`). -/
def save_reply_type (flags : Nat) (queryID : Nat) (s : State) : State :=
  let q := s.queries.getD queryID default
  let domainID := q.domainID
  let replyID := if q.type == TYPE_A then 0 else 1
  if flags &&& F_NEG != 0 then
    if flags &&& F_NXDOMAIN != 0 then
      { s with
        domains := updAt s.domains domainID (fun d =>
          { d with reply := updAt d.reply replyID REPLY_NXDOMAIN }),
        counters := { s.counters with reply_NXDOMAIN := s.counters.reply_NXDOMAIN + 1 } }
    else
      { s with
        domains := updAt s.domains domainID (fun d =>
          { d with reply := updAt d.reply replyID REPLY_NODATA }),
        counters := { s.counters with reply_NODATA := s.counters.reply_NODATA + 1 } }
  else if flags &&& F_CNAME != 0 then
    { s with
      domains := updAt s.domains domainID (fun d =>
        { d with reply := updAt d.reply replyID REPLY_CNAME }),
      counters := { s.counters with reply_CNAME := s.counters.reply_CNAME + 1 } }
  else
    { s with
      domains := updAt s.domains domainID (fun d =>
        { d with reply := updAt d.reply replyID REPLY_IP }),
      counters := { s.counters with reply_IP := s.counters.reply_IP + 1 } }

/-- Embedding of storeIP (src/dnsmasq_interface.c lines 555–592).  The C
free/strdup dance ("replace owned value unless equal") leaves the same
string value either way, so both branches collapse to storing `ip`. -/
def storeIP (i : Nat) (ip : String) (s : State) : State :=
  let q := s.queries.getD i default
  let domainID := q.domainID
  if q.type == TYPE_A then
    { s with domains := updAt s.domains domainID (fun d => { d with IPv4 := some ip }) }
  else if q.type == TYPE_AAAA then
    { s with domains := updAt s.domains domainID (fun d => { d with IPv6 := some ip }) }
  else
    s

/-- Shared answer-recording code of FTL_reply's local-configuration branch
(src/dnsmasq_interface.c lines 346–363) and FTL_cache (lines 527–544),
which are textually identical: save_reply_type, conditional storeIP on an
exact non-negative non-CNAME match, store the ttl, mark complete.  `q` is
the matched record as stored at index `i` of `s.queries`. -/
def finish_answer (flags : Nat) (name dest : String) (ttl : Nat) (i : Nat)
    (q : queriesData) (s : State) : State × List Act :=
  let s := save_reply_type flags i s
  if flags &&& F_NEG == 0 && flags &&& F_CNAME == 0 && dest.length > 2
      && (s.domains q.domainID).domain == name then
    let s := storeIP i dest s
    ({ s with queries := s.queries.set i { q with ttl := ttl, complete := true } },
     [.write, .write, .write, .write, .write])
  else
    ({ s with queries := s.queries.set i { q with ttl := ttl, complete := true } },
     [.write, .write, .write, .write])

/-- Post-loop portion of FTL_reply's local-configuration (F_CONFIG) branch
(src/dnsmasq_interface.c lines 305–368).  `q` is the matched record as
already stored at index `i` of `s.queries` with its status overwritten by
detectStatus (line 299); `timeidx` comes from gettimestamp/findOverTimeID
(lines 319–321). -/
def FTL_reply_config_tail (flags : Nat) (name dest : String) (ttl : Nat)
    (timeidx i : Nat) (q : queriesData) (s : State) : State × List Act :=
  if q.complete then
    (s, [.lock, .write, .unlock])
  else
    let s := { s with counters := { s.counters with unknown := s.counters.unknown - 1 } }
    let sa : State × List Act :=
      if q.status == QUERY_WILDCARD then
        ({ s with
            counters := { s.counters with
              wildcardblocked := s.counters.wildcardblocked + 1 },
            overTime := updAt s.overTime timeidx (fun b => { b with blocked := b.blocked + 1 }),
            domains := updAt s.domains q.domainID (fun d =>
              { d with blockedcount := d.blockedcount + 1, wildcard := true }) },
         [.write, .write, .write, .write])
      else if q.status == QUERY_CACHE then
        ({ s with
            counters := { s.counters with cached := s.counters.cached + 1 },
            overTime := updAt s.overTime timeidx (fun b => { b with cached := b.cached + 1 }) },
         [.write, .write])
      else (s, [])
    let fa := finish_answer flags name dest ttl i q sa.1
    (fa.1, [.lock, .write, .write] ++ sa.2 ++ fa.2 ++ [.unlock])

/-- Post-loop portion of FTL_reply's forwarded-upstream (F_FORWARD) branch
(src/dnsmasq_interface.c lines 394–413).  `q` is the matched record at
index `i` of `s.queries` (not modified by the loop in this branch). -/
def FTL_reply_forward_tail (flags : Nat) (name dest : String) (ttl : Nat)
    (i : Nat) (q : queriesData) (s : State) : State × List Act :=
  if (s.domains q.domainID).domain == name then
    let s := save_reply_type flags i s
    let sa : State × List Act :=
      if flags &&& F_NEG == 0 && flags &&& F_CNAME == 0 && dest.length > 2 then
        (storeIP i dest s, [.write])
      else (s, [])
    ({ sa.1 with queries := sa.1.queries.set i { q with ttl := ttl } },
     [.lock, .write, .write] ++ sa.2 ++ [.write, .unlock])
  else
    (s, [.lock, .unlock])

/-- Embedding of FTL_reply (src/dnsmasq_interface.c lines 262–421).
`addr` is nullable; `dest` is its inet_ntop rendering, the empty string
when NULL (line 267).  `detectedStatus` is the result of the external
detectStatus collaborator (line 299); `timeidx` comes from
gettimestamp/findOverTimeID.  Both search loops scan forward and break at
the first record whose `id` matches. -/
def FTL_reply (flags : Nat) (name : String) (addr : Option String) (ttl : Nat)
    (id : Int) (detectedStatus : Nat) (timeidx : Nat) (s : State) : State × List Act :=
  let dest := addr.getD ""
  if flags &&& F_CONFIG != 0 then
    let i := s.queries.findIdx (fun q => q.id == id)
    if i < s.queries.length then
      let q : queriesData := { s.queries.getD i default with status := detectedStatus }
      FTL_reply_config_tail flags name dest ttl timeidx i q
        { s with queries := s.queries.set i q }
    else
      (s, [.lock, .unlock])
  else if flags &&& F_FORWARD != 0 then
    let i := s.queries.findIdx (fun q => q.id == id)
    if i < s.queries.length then
      FTL_reply_forward_tail flags name dest ttl i (s.queries.getD i default) s
    else
      (s, [.lock, .unlock])
  else
    (s, [.lock, .unlock])

/-- Post-loop portion of FTL_cache's recognised-flags branch
(src/dnsmasq_interface.c lines 499–545).  `q` is the matched record as
already stored at index `i` of `s.queries` with its status overwritten to
`requesttype` (line 486); `timeidx` comes from gettimestamp/findOverTimeID
(lines 507–509). -/
def FTL_cache_tail (flags : Nat) (name dest : String) (ttl : Nat)
    (timeidx i requesttype : Nat) (q : queriesData) (s : State) : State × List Act :=
  if q.complete then
    (s, [.lock, .write, .unlock])
  else
    let s := { s with counters := { s.counters with unknown := s.counters.unknown - 1 } }
    let sa : State × List Act :=
      if requesttype == QUERY_GRAVITY || requesttype == QUERY_BLACKLIST then
        ({ s with
            counters := { s.counters with blocked := s.counters.blocked + 1 },
            overTime := updAt s.overTime timeidx (fun b => { b with blocked := b.blocked + 1 }),
            domains := updAt s.domains q.domainID (fun d =>
              { d with blockedcount := d.blockedcount + 1 }) },
         [.write, .write, .write])
      else if requesttype == QUERY_CACHE then
        ({ s with
            counters := { s.counters with cached := s.counters.cached + 1 },
            overTime := updAt s.overTime timeidx (fun b => { b with cached := b.cached + 1 }) },
         [.write, .write])
      else (s, [])
    let fa := finish_answer flags name dest ttl i q sa.1
    (fa.1, [.lock, .write, .write] ++ sa.2 ++ fa.2 ++ [.unlock])

/-- Embedding of FTL_cache (src/dnsmasq_interface.c lines 423–553).
`addr` is nullable; `dest` is its inet_ntop rendering, empty when NULL.
`arg` is the source-file string (nullable).  The `requesttype`
classification mirrors lines 457–476; the final `else` there (requesttype
left 0) is unreachable given the outer flag test but is kept.  The search
loop scans forward and breaks at the first record whose `id` matches,
storing `requesttype` into its status (line 486). -/
def FTL_cache (flags : Nat) (name : String) (addr arg : Option String)
    (ttl : Nat) (id : Int) (timeidx : Nat) (s : State) : State × List Act :=
  let dest := addr.getD ""
  let domain := strtolower name
  if domain == "pi.hole" then
    (s, [.lock, .unlock])
  else if (flags &&& F_HOSTS != 0 && flags &&& F_IMMORTAL != 0)
      || (flags &&& F_NAMEP != 0 && flags &&& F_DHCP != 0)
      || flags &&& F_FORWARD != 0 then
    let requesttype : Nat :=
      if flags &&& F_HOSTS != 0 then
        if (match arg with | some a => strstrB a "/gravity.list" | none => false) then
          QUERY_GRAVITY
        else if (match arg with | some a => strstrB a "/black.list" | none => false) then
          QUERY_BLACKLIST
        else
          QUERY_CACHE
      else if flags &&& F_NAMEP != 0 && flags &&& F_DHCP != 0 then QUERY_CACHE
      else if flags &&& F_FORWARD != 0 then QUERY_CACHE
      else 0
    let i := s.queries.findIdx (fun q => q.id == id)
    if i < s.queries.length then
      let q : queriesData := { s.queries.getD i default with status := requesttype }
      FTL_cache_tail flags name dest ttl timeidx i requesttype q
        { s with queries := s.queries.set i q }
    else
      (s, [.lock, .unlock])
  else
    (s, [.lock, .unlock])

/-- Embedding of FTL_dnssec (src/dnsmasq_interface.c lines 594–629).  The
search loop scans forward and breaks at the first record whose `id`
matches. -/
def FTL_dnssec (status : Int) (id : Int) (s : State) : State × List Act :=
  let i := s.queries.findIdx (fun q => q.id == id)
  if i < s.queries.length then
    let domainID := (s.queries.getD i default).domainID
    let v :=
      if status == STAT_SECURE then DNSSEC_SECURE
      else if status == STAT_INSECURE then DNSSEC_INSECURE
      else DNSSEC_BOGUS
    ({ s with domains := updAt s.domains domainID (fun d => { d with dnssec := v }) },
     [.lock, .write, .unlock])
  else
    (s, [.lock, .unlock])

/-- The indices into `flagnames` accessed by print_flags
(src/dnsmasq_interface.c lines 631–640): the loop runs i over all
sizeof(flags)*8 = 32 bit positions and reads flagnames[i] whenever bit i of
`flags` is set. -/
def print_flags_accesses (flags : Nat) : List Nat :=
  (List.range 32).filter (fun i => flags &&& (1 <<< i) != 0)

/-- Whether some access print_flags performs lies outside the bounds of the
`flagnames` array. -/
def print_flags_oob (flags : Nat) : Bool :=
  (print_flags_accesses flags).any (fun i => flagnames.length ≤ i)

/-- One resolver callback invocation together with the values its external
collaborators (timestamps, interning tables, detectStatus, inet_ntop)
return during the call. -/
inductive Event where
  | newQuery (cfg : Config) (flags : Nat) (name clientIP types : String)
      (id : Int) (querytimestamp : Int) (timeidx domainID clientID : Nat)
  | forwarded (flags : Nat) (name forwardIP : String) (id forwardOracle : Int)
  | reply (flags : Nat) (name : String) (addr : Option String) (ttl : Nat)
      (id : Int) (detectedStatus : Nat) (timeidx : Nat)
  | cache (flags : Nat) (name : String) (addr arg : Option String)
      (ttl : Nat) (id : Int) (timeidx : Nat)
  | dnssec (status id : Int)
  | reload
  | readHosts (filename : Option String) (addr_count : Int)

/-- Dispatch one event to its handler and keep the post-state. -/
def step (s : State) : Event → State
  | .newQuery cfg flags name clientIP types id qts t dID cID =>
    (FTL_new_query cfg flags name clientIP types id qts t dID cID s).1
  | .forwarded flags name fwdIP id fo =>
    (FTL_forwarded flags name fwdIP id fo s).1
  | .reply flags name addr ttl id det t =>
    (FTL_reply flags name addr ttl id det t s).1
  | .cache flags name addr arg ttl id t =>
    (FTL_cache flags name addr arg ttl id t s).1
  | .dnssec st id => (FTL_dnssec st id s).1
  | .reload => (FTL_dnsmasq_reload s).1
  | .readHosts fn c => (FTL_read_hosts fn c s).1

/-- The process-start state: all counters zero, no query records, empty
aggregate tables. -/
def initState : State :=
  { counters :=
      { queries := 0, blocked := 0, wildcardblocked := 0, cached := 0,
        unknown := 0, forwardedqueries := 0, gravity := 0,
        querytype := fun _ => 0, reply_NODATA := 0, reply_NXDOMAIN := 0,
        reply_CNAME := 0, reply_IP := 0 },
    queries := [],
    overTime := fun _ =>
      { total := 0, blocked := 0, cached := 0,
        querytypedata := fun _ => 0, clientdata := fun _ => 0 },
    domains := fun _ =>
      { domain := "", blockedcount := 0, wildcard := false,
        dnssec := DNSSEC_UNKNOWN, reply := fun _ => REPLY_UNKNOWN,
        IPv4 := none, IPv6 := none } }

/-- States reachable from process start by any sequence of handler
invocations (observed between invocations). -/
inductive Reachable : State → Prop where
  | init : Reachable initState
  | step {s : State} (e : Event) : Reachable s → Reachable (step s e)

/-- Number of query records whose `complete` flag is set. -/
def completedCount (qs : List queriesData) : Nat :=
  (qs.filter (fun q => q.complete)).length

/-- The unknown-counter invariant of spec §8: the unknown counter plus the
number of complete records equals the number of records ever created
(records are never deleted, so that is the length of the record list). -/
def countInv (s : State) : Prop :=
  s.counters.unknown + (completedCount s.queries : Int) = (s.queries.length : Int)

/-- Auxiliary strengthening: every record in status CACHE is complete
(needed because FTL_forwarded's cache-reversal path assumes it). -/
def cacheComplete (s : State) : Prop :=
  ∀ q ∈ s.queries, q.status = QUERY_CACHE → q.complete = true

/-- The inductive invariant: the §8 counting identity together with its
auxiliary strengthening. -/
def StrongInv (s : State) : Prop :=
  countInv s ∧ cacheComplete s

theorem completedCount_append (xs ys : List queriesData) :
    completedCount (xs ++ ys) = completedCount xs + completedCount ys := by
  simp [completedCount, List.filter_append]

theorem completedCount_cons (a : queriesData) (l : List queriesData) :
    completedCount (a :: l) = (if a.complete then 1 else 0) + completedCount l := by
  by_cases h : a.complete <;> simp [completedCount, h, List.filter_cons] <;> omega

theorem completedCount_set (qs : List queriesData) (i : Nat) (q' : queriesData)
    (h : i < qs.length) :
    (completedCount (qs.set i q') : Int)
      = (completedCount qs : Int)
        + (if q'.complete then (1 : Int) else 0)
        - (if (qs.getD i default).complete then (1 : Int) else 0) := by
  induction qs generalizing i with
  | nil => simp at h
  | cons a as ih =>
    cases i with
    | zero =>
      simp only [List.set_cons_zero, List.getD_cons_zero, completedCount_cons]
      split_ifs <;> push_cast <;> omega
    | succ n =>
      have hn : n < as.length := by simpa using h
      have hih := ih n hn
      simp only [List.set_cons_succ, List.getD_cons_succ, completedCount_cons]
      split_ifs at hih ⊢ <;> push_cast at hih ⊢ <;> omega

theorem getD_set_self (l : List queriesData) (a d : queriesData) (i : Nat)
    (h : i < l.length) : (l.set i a).getD i d = a := by
  rw [List.getD_eq_getElem?_getD, List.getElem?_set_self', List.getElem?_eq_getElem h]
  rfl

theorem getD_set_ne (l : List queriesData) (a d : queriesData) (i j : Nat)
    (h : j ≠ i) : (l.set i a).getD j d = l.getD j d := by
  rw [List.getD_eq_getElem?_getD, List.getElem?_set_ne (by omega),
    List.getD_eq_getElem?_getD]

theorem getD_mem (l : List queriesData) (d : queriesData) (i : Nat)
    (h : i < l.length) : l.getD i d ∈ l := by
  rw [List.getD_eq_getElem?_getD, List.getElem?_eq_getElem h]
  simpa using List.getElem_mem h

theorem findIdx_getD (l : List queriesData) (d : queriesData) (p : queriesData → Bool)
    (h : l.findIdx p < l.length) : p (l.getD (l.findIdx p) d) = true := by
  rw [List.getD_eq_getElem?_getD, List.getElem?_eq_getElem h]
  simpa using List.findIdx_getElem (w := h)

theorem findIdx_eq_length_of_notfound (l : List queriesData) (p : queriesData → Bool)
    (h : ∀ a ∈ l, p a = false) : l.findIdx p = l.length := by
  induction l with
  | nil => rfl
  | cons x xs ih =>
    rw [List.findIdx_cons]
    simp [h x (List.mem_cons_self x xs), ih (fun a ha => h a (List.mem_cons_of_mem x ha))]

theorem findIdx_eq_of_first_match (l : List queriesData) (p : queriesData → Bool)
    (i : Nat) (h : i < l.length) (hp : p (l.getD i default) = true)
    (hmin : ∀ j, j < i → p (l.getD j default) = false) : l.findIdx p = i := by
  induction l generalizing i with
  | nil => simp at h
  | cons x xs ih =>
    rw [List.findIdx_cons]
    cases i with
    | zero => simp_all
    | succ n =>
      have hx : p x = false := by simpa using hmin 0 (Nat.succ_pos n)
      simp only [hx, cond_false]
      have := ih n (by simpa using h) (by simpa using hp)
        (fun j hj => by simpa using hmin (j + 1) (by omega))
      omega

theorem save_reply_type_frame (flags : Nat) (i : Nat) (s : State) :
    (save_reply_type flags i s).queries = s.queries ∧
    (save_reply_type flags i s).overTime = s.overTime ∧
    (save_reply_type flags i s).counters.unknown = s.counters.unknown ∧
    (save_reply_type flags i s).counters.cached = s.counters.cached ∧
    (save_reply_type flags i s).counters.blocked = s.counters.blocked ∧
    (save_reply_type flags i s).counters.forwardedqueries = s.counters.forwardedqueries ∧
    (save_reply_type flags i s).counters.wildcardblocked = s.counters.wildcardblocked ∧
    (save_reply_type flags i s).counters.gravity = s.counters.gravity ∧
    (save_reply_type flags i s).counters.queries = s.counters.queries ∧
    (save_reply_type flags i s).counters.querytype = s.counters.querytype := by
  unfold save_reply_type
  split_ifs <;> simp

theorem storeIP_frame (i : Nat) (ip : String) (s : State) :
    (storeIP i ip s).queries = s.queries ∧
    (storeIP i ip s).overTime = s.overTime ∧
    (storeIP i ip s).counters = s.counters := by
  simp only [storeIP]
  split_ifs <;> simp

theorem status_ne_cache_unknown : QUERY_UNKNOWN ≠ QUERY_CACHE := by decide

theorem status_ne_cache_forwarded : QUERY_FORWARDED ≠ QUERY_CACHE := by decide

theorem StrongInv_new_query (cfg : Config) (flags : Nat) (name clientIP types : String)
    (id : Int) (qts : Int) (t dID cID : Nat) (s : State) (hs : StrongInv s) :
    StrongInv (FTL_new_query cfg flags name clientIP types id qts t dID cID s).1 := by
  obtain ⟨h1, h2⟩ := hs
  simp only [FTL_new_query]
  split
  · exact ⟨h1, h2⟩
  split
  · exact ⟨h1, h2⟩
  split
  · exact ⟨h1, h2⟩
  split
  · exact ⟨h1, h2⟩
  constructor
  · simp only [countInv] at h1 ⊢
    simp only [completedCount_append, List.length_append]
    have hcc : ∀ q : queriesData, q.complete = false →
        completedCount [q] = 0 := by
      intro q hq; simp [completedCount, hq]
    rw [hcc _ rfl]
    simp only [List.length_singleton]
    push_cast at h1 ⊢
    omega
  · intro q hq hstat
    rcases List.mem_append.mp hq with hmem | hmem
    · exact h2 q hmem hstat
    · rw [List.mem_singleton.mp hmem] at hstat
      exact absurd hstat status_ne_cache_unknown

theorem StrongInv_forwarded (flags : Nat) (name fwdIP : String) (id fo : Int)
    (s : State) (hs : StrongInv s) :
    StrongInv (FTL_forwarded flags name fwdIP id fo s).1 := by
  obtain ⟨h1, h2⟩ := hs
  simp only [FTL_forwarded, FTL_forwarded_tail]
  split
  case isFalse h => exact ⟨h1, h2⟩
  case isTrue h =>
    set i := s.queries.findIdx (fun q => q.id == id) with hi
    set q := s.queries.getD i default with hq
    have hqmem : q ∈ s.queries := getD_mem s.queries default i h
    split
    case isTrue hcache =>
      have hqc : q.complete = true :=
        h2 q hqmem (by simpa using hcache)
      rw [if_neg (by simp)]
      rw [if_pos (by simp)]
      constructor
      · simp only [countInv] at h1 ⊢
        rw [List.set_set, List.set_set]
        rw [completedCount_set s.queries i _ h]
        simp only [← hq, hqc, List.length_set]
        push_cast at h1 ⊢
        omega
      · intro p hp hstat
        rw [List.set_set, List.set_set] at hp
        rcases List.mem_or_eq_of_mem_set hp with hmem | rfl
        · exact h2 p hmem hstat
        · rfl
    case isFalse hcache =>
      by_cases hqc : q.complete
      · rw [if_pos (by simpa using hqc)]
        constructor
        · simp only [countInv] at h1 ⊢
          rw [completedCount_set s.queries i _ h]
          simp only [← hq, List.length_set]
          have : ({ q with status := QUERY_FORWARDED } : queriesData).complete = q.complete := rfl
          rw [this, hqc]
          push_cast at h1 ⊢
          omega
        · intro p hp hstat
          rcases List.mem_or_eq_of_mem_set hp with hmem | rfl
          · exact h2 p hmem hstat
          · exact hqc
      · rw [if_neg (by simpa using hqc)]
        rw [if_pos (by simpa using hqc)]
        constructor
        · simp only [countInv] at h1 ⊢
          rw [List.set_set, List.set_set]
          rw [completedCount_set s.queries i _ h]
          simp only [← hq, List.length_set]
          have hqcf : q.complete = false := by simpa using hqc
          rw [hqcf]
          push_cast at h1 ⊢
          omega
        · intro p hp hstat
          rw [List.set_set, List.set_set] at hp
          rcases List.mem_or_eq_of_mem_set hp with hmem | rfl
          · exact h2 p hmem hstat
          · rfl

theorem save_reply_type_queries (flags : Nat) (i : Nat) (s : State) :
    (save_reply_type flags i s).queries = s.queries :=
  (save_reply_type_frame flags i s).1

theorem save_reply_type_unknown (flags : Nat) (i : Nat) (s : State) :
    (save_reply_type flags i s).counters.unknown = s.counters.unknown :=
  (save_reply_type_frame flags i s).2.2.1

theorem storeIP_queries (i : Nat) (ip : String) (s : State) :
    (storeIP i ip s).queries = s.queries :=
  (storeIP_frame i ip s).1

theorem storeIP_counters (i : Nat) (ip : String) (s : State) :
    (storeIP i ip s).counters = s.counters :=
  (storeIP_frame i ip s).2.2

theorem finish_answer_spec (flags : Nat) (name dest : String) (ttl i : Nat)
    (q : queriesData) (s : State) :
    (finish_answer flags name dest ttl i q s).1.queries
        = s.queries.set i { q with ttl := ttl, complete := true } ∧
    (finish_answer flags name dest ttl i q s).1.counters.unknown
        = s.counters.unknown := by
  simp only [finish_answer]
  split <;>
    exact ⟨by simp [save_reply_type_queries, storeIP_queries],
           by simp [save_reply_type_unknown, storeIP_counters]⟩

theorem cacheComplete_set (s : State) (i : Nat) (q' : queriesData)
    (h2 : cacheComplete s) (hq' : q'.status = QUERY_CACHE → q'.complete = true) :
    ∀ p ∈ s.queries.set i q', p.status = QUERY_CACHE → p.complete = true := by
  intro p hp hstat
  rcases List.mem_or_eq_of_mem_set hp with hmem | rfl
  · exact h2 p hmem hstat
  · exact hq' hstat

theorem StrongInv_reply (flags : Nat) (name : String) (addr : Option String)
    (ttl : Nat) (id : Int) (det : Nat) (t : Nat) (s : State) (hs : StrongInv s) :
    StrongInv (FTL_reply flags name addr ttl id det t s).1 := by
  obtain ⟨h1, h2⟩ := hs
  simp only [FTL_reply]
  split
  · -- F_CONFIG branch
    split
    case isFalse h => exact ⟨h1, h2⟩
    case isTrue h =>
      set i := s.queries.findIdx (fun p => p.id == id) with hi
      set q0 := s.queries.getD i default with hq0
      have hq0mem : q0 ∈ s.queries := getD_mem s.queries default i h
      simp only [FTL_reply_config_tail]
      split
      case isTrue hcomp =>
        have hqc : q0.complete = true := hcomp
        constructor
        · simp only [countInv] at h1 ⊢
          rw [completedCount_set s.queries i _ h]
          simp only [← hq0, List.length_set]
          have : ({ q0 with status := det } : queriesData).complete = q0.complete := rfl
          rw [this]
          push_cast at h1 ⊢
          omega
        · exact cacheComplete_set s i _ h2 (fun _ => hqc)
      case isFalse hcomp =>
        have hqc : q0.complete = false := by
          simpa using hcomp
        constructor
        · simp only [countInv] at h1 ⊢
          rw [(finish_answer_spec flags name (addr.getD "") ttl i _ _).1,
            (finish_answer_spec flags name (addr.getD "") ttl i _ _).2]
          split <;> try split
          all_goals
            rw [List.set_set, completedCount_set s.queries i _ h]
            simp only [← hq0, List.length_set, hqc]
            push_cast at h1 ⊢
            omega
        · intro p hp hstat
          rw [(finish_answer_spec flags name (addr.getD "") ttl i _ _).1] at hp
          split at hp <;> try split at hp
          all_goals
            rw [List.set_set] at hp
            exact cacheComplete_set s i _ h2 (fun _ => rfl) p hp hstat
  · split
    · -- F_FORWARD branch
      split
      case isFalse h => exact ⟨h1, h2⟩
      case isTrue h =>
        set i := s.queries.findIdx (fun p => p.id == id) with hi
        set q0 := s.queries.getD i default with hq0
        have hq0mem : q0 ∈ s.queries := getD_mem s.queries default i h
        simp only [FTL_reply_forward_tail]
        split
        case isFalse hname => exact ⟨h1, h2⟩
        case isTrue hname =>
          constructor
          · simp only [countInv] at h1 ⊢
            split <;>
            · simp only [storeIP_queries, storeIP_counters,
                save_reply_type_queries, save_reply_type_unknown]
              rw [completedCount_set s.queries i _ h]
              simp only [← hq0, List.length_set]
              have : ({ q0 with ttl := ttl } : queriesData).complete = q0.complete := rfl
              rw [this]
              push_cast at h1 ⊢
              omega
          · split <;>
            · simp only [storeIP_queries, save_reply_type_queries]
              exact cacheComplete_set s i _ h2 (fun hst => h2 q0 hq0mem hst)
    · exact ⟨h1, h2⟩

theorem StrongInv_cache (flags : Nat) (name : String) (addr arg : Option String)
    (ttl : Nat) (id : Int) (t : Nat) (s : State) (hs : StrongInv s) :
    StrongInv (FTL_cache flags name addr arg ttl id t s).1 := by
  obtain ⟨h1, h2⟩ := hs
  simp only [FTL_cache]
  split
  · exact ⟨h1, h2⟩
  split
  case isFalse => exact ⟨h1, h2⟩
  case isTrue =>
    split
    case isFalse h => exact ⟨h1, h2⟩
    case isTrue h =>
      set i := s.queries.findIdx (fun p => p.id == id) with hi
      set q0 := s.queries.getD i default with hq0
      have hq0mem : q0 ∈ s.queries := getD_mem s.queries default i h
      simp only [FTL_cache_tail]
      split
      case isTrue hcomp =>
        have hqc : q0.complete = true := hcomp
        constructor
        · simp only [countInv] at h1 ⊢
          rw [completedCount_set s.queries i _ h]
          simp only [← hq0, List.length_set]
          have : (({ q0 with status := _ } : queriesData)).complete = q0.complete := rfl
          rw [this]
          push_cast at h1 ⊢
          omega
        · exact cacheComplete_set s i _ h2 (fun _ => hqc)
      case isFalse hcomp =>
        have hqc : q0.complete = false := by simpa using hcomp
        constructor
        · simp only [countInv] at h1 ⊢
          rw [(finish_answer_spec flags name (addr.getD "") ttl i _ _).1,
            (finish_answer_spec flags name (addr.getD "") ttl i _ _).2]
          repeat' split
          all_goals
            rw [List.set_set, completedCount_set s.queries i _ h]
            simp only [← hq0, List.length_set, hqc]
            push_cast at h1 ⊢
            omega
        · intro p hp hstat
          rw [(finish_answer_spec flags name (addr.getD "") ttl i _ _).1] at hp
          repeat' split at hp
          all_goals
            rw [List.set_set] at hp
            exact cacheComplete_set s i _ h2 (fun _ => rfl) p hp hstat

theorem StrongInv_dnssec (st id : Int) (s : State) (hs : StrongInv s) :
    StrongInv (FTL_dnssec st id s).1 := by
  obtain ⟨h1, h2⟩ := hs
  simp only [FTL_dnssec]
  split <;> exact ⟨h1, h2⟩

theorem StrongInv_reload (s : State) (hs : StrongInv s) :
    StrongInv (FTL_dnsmasq_reload s).1 := by
  obtain ⟨h1, h2⟩ := hs
  exact ⟨h1, h2⟩

theorem StrongInv_read_hosts (fn : Option String) (c : Int) (s : State)
    (hs : StrongInv s) : StrongInv (FTL_read_hosts fn c s).1 := by
  obtain ⟨h1, h2⟩ := hs
  simp only [FTL_read_hosts]
  split
  · split <;> exact ⟨h1, h2⟩
  · exact ⟨h1, h2⟩

theorem StrongInv_step (s : State) (e : Event) (hs : StrongInv s) :
    StrongInv (step s e) := by
  cases e with
  | newQuery cfg flags name clientIP types id qts t dID cID =>
    exact StrongInv_new_query cfg flags name clientIP types id qts t dID cID s hs
  | forwarded flags name fwdIP id fo => exact StrongInv_forwarded flags name fwdIP id fo s hs
  | reply flags name addr ttl id det t => exact StrongInv_reply flags name addr ttl id det t s hs
  | cache flags name addr arg ttl id t => exact StrongInv_cache flags name addr arg ttl id t s hs
  | dnssec st id => exact StrongInv_dnssec st id s hs
  | reload => exact StrongInv_reload s hs
  | readHosts fn c => exact StrongInv_read_hosts fn c s hs

theorem StrongInv_init : StrongInv initState := by
  constructor
  · simp [countInv, initState, completedCount]
  · intro q hq
    simp [initState] at hq

theorem StrongInv_reachable (s : State) (h : Reachable s) : StrongInv s := by
  induction h with
  | init => exact StrongInv_init
  | step e _ ih => exact StrongInv_step _ e ih

/-- C1: for every sequence of handler invocations (FTL_new_query,
FTL_forwarded, FTL_cache, FTL_reply, FTL_dnssec, FTL_dnsmasq_reload,
FTL_read_hosts), at every point between invocations the global unknown
counter plus the number of query records with complete=true equals the
total number of query records created (records are never deleted, so that
total is the length of the record list). -/
theorem C1_unknown_plus_completed_eq_created (s : State) (h : Reachable s) :
    s.counters.unknown + (completedCount s.queries : Int) = (s.queries.length : Int) :=
  (StrongInv_reachable s h).1

/-- A concrete reachable state: one A query observed, then forwarded. -/
def c1WitnessState : State :=
  step (step initState
      (.newQuery { analyze_AAAA := true, privacylevel := 0 } 0 "example.com"
        "192.168.2.9" "query[A]" 1 100 0 0 0))
    (.forwarded 0 "example.com" "8.8.8.8" 1 0)

theorem C1_unknown_plus_completed_eq_created_witness :
    c1WitnessState.counters.unknown + (completedCount c1WitnessState.queries : Int)
      = (c1WitnessState.queries.length : Int) :=
  C1_unknown_plus_completed_eq_created c1WitnessState
    (Reachable.step _ (Reachable.step _ Reachable.init))

/-- C2: if FTL_forwarded matches a query record whose current status is
CACHE, it reverses the cache accounting (global and bucket cached
decremented, unknown incremented, complete reset) and then finalizes in
the same call (unknown decremented, forwardedqueries incremented, complete
set), so after the call: cached is one lower, forwardedqueries one higher,
unknown unchanged, the record's bucket cached one lower, and the record is
complete with status FORWARDED and the new forward destination. -/
theorem C2_cache_reforward_race (flags : Nat) (name fwdIP : String) (id fo : Int)
    (s : State) (i : Nat) (hi : i = s.queries.findIdx (fun q => q.id == id))
    (h : i < s.queries.length)
    (hst : (s.queries.getD i default).status = QUERY_CACHE) :
    (FTL_forwarded flags name fwdIP id fo s).1.counters.cached
        = s.counters.cached - 1 ∧
    (FTL_forwarded flags name fwdIP id fo s).1.counters.forwardedqueries
        = s.counters.forwardedqueries + 1 ∧
    (FTL_forwarded flags name fwdIP id fo s).1.counters.unknown
        = s.counters.unknown ∧
    ((FTL_forwarded flags name fwdIP id fo s).1.overTime
        (s.queries.getD i default).timeidx).cached
      = (s.overTime (s.queries.getD i default).timeidx).cached - 1 ∧
    ((FTL_forwarded flags name fwdIP id fo s).1.queries.getD i default).complete = true ∧
    ((FTL_forwarded flags name fwdIP id fo s).1.queries.getD i default).status
        = QUERY_FORWARDED ∧
    ((FTL_forwarded flags name fwdIP id fo s).1.queries.getD i default).forwardID = fo := by
  subst hi
  simp only [FTL_forwarded, FTL_forwarded_tail]
  rw [if_pos h, if_pos (beq_iff_eq.mpr hst)]
  have hq3 : ∀ q3 : queriesData,
      (((s.queries.set (s.queries.findIdx (fun q => q.id == id)) q3)).getD
        (s.queries.findIdx (fun q => q.id == id)) default) = q3 :=
    fun q3 => getD_set_self s.queries q3 default _ h
  refine ⟨?_, ?_, ?_, ?_, ?_, ?_, ?_⟩ <;>
    simp [-List.getD_eq_getElem?_getD, updAt, List.set_set, hq3] <;> omega

/-- A concrete state holding one complete CACHE-status record with
transient id 2, as left by a cache answer. -/
def c2State : State :=
  { initState with
    counters := { initState.counters with queries := 1, cached := 1 },
    queries := [{ magic := MAGICBYTE, timestamp := 0, type := TYPE_A,
                  status := QUERY_CACHE, domainID := 0, clientID := 0,
                  timeidx := 0, db := false, id := 2, complete := true,
                  privacy := false, ttl := 30, forwardID := 0 }] }

theorem C2_cache_reforward_race_witness :
    (FTL_forwarded 0 "example.com" "8.8.8.8" 2 5 c2State).1.counters.cached
        = c2State.counters.cached - 1 ∧
    (FTL_forwarded 0 "example.com" "8.8.8.8" 2 5 c2State).1.counters.forwardedqueries
        = c2State.counters.forwardedqueries + 1 ∧
    (FTL_forwarded 0 "example.com" "8.8.8.8" 2 5 c2State).1.counters.unknown
        = c2State.counters.unknown ∧
    ((FTL_forwarded 0 "example.com" "8.8.8.8" 2 5 c2State).1.overTime
        (c2State.queries.getD 0 default).timeidx).cached
      = (c2State.overTime (c2State.queries.getD 0 default).timeidx).cached - 1 ∧
    ((FTL_forwarded 0 "example.com" "8.8.8.8" 2 5 c2State).1.queries.getD 0 default).complete
        = true ∧
    ((FTL_forwarded 0 "example.com" "8.8.8.8" 2 5 c2State).1.queries.getD 0 default).status
        = QUERY_FORWARDED ∧
    ((FTL_forwarded 0 "example.com" "8.8.8.8" 2 5 c2State).1.queries.getD 0 default).forwardID
        = 5 :=
  C2_cache_reforward_race 0 "example.com" "8.8.8.8" 2 5 c2State 0
    (by decide) (by decide) (by decide)

/-- A concrete state with two incomplete records sharing transient id 7. -/
def c3State : State :=
  { initState with
    counters := { initState.counters with queries := 2, unknown := 2 },
    queries := [{ magic := MAGICBYTE, timestamp := 0, type := TYPE_A,
                  status := QUERY_UNKNOWN, domainID := 0, clientID := 0,
                  timeidx := 0, db := false, id := 7, complete := false,
                  privacy := false, ttl := 0, forwardID := 0 },
                { magic := MAGICBYTE, timestamp := 1, type := TYPE_A,
                  status := QUERY_UNKNOWN, domainID := 1, clientID := 0,
                  timeidx := 0, db := false, id := 7, complete := false,
                  privacy := false, ttl := 0, forwardID := 0 }] }

/-- C3 counterexample: with two records sharing transient id 7,
FTL_forwarded updates the record at the LOWEST slot index (slot 0), not
the one with the highest slot index (slot 1), which is left untouched. -/
theorem C3_counterexample_first_match :
    ((FTL_forwarded 0 "a.com" "8.8.8.8" 7 1 c3State).1.queries.getD 1 default).status
        = QUERY_UNKNOWN ∧
    ((FTL_forwarded 0 "a.com" "8.8.8.8" 7 1 c3State).1.queries.getD 1 default).complete
        = false ∧
    ((FTL_forwarded 0 "a.com" "8.8.8.8" 7 1 c3State).1.queries.getD 0 default).status
        = QUERY_FORWARDED := by
  decide

/-- C3 (amended): when several query records share the same transient id,
FTL_forwarded updates the record with the lowest slot index (the first
match of its forward scan), leaving every record at any other slot
unchanged; if no record matches the id, the handler leaves the entire
state unchanged. -/
theorem C3_forwarded_first_match_or_noop (flags : Nat) (name fwdIP : String)
    (id fo : Int) (s : State) :
    ((∀ q ∈ s.queries, q.id ≠ id) → (FTL_forwarded flags name fwdIP id fo s).1 = s) ∧
    (∀ i, i < s.queries.length → (s.queries.getD i default).id = id →
      (∀ j, j < i → (s.queries.getD j default).id ≠ id) →
      ((FTL_forwarded flags name fwdIP id fo s).1.queries.getD i default).status
          = QUERY_FORWARDED ∧
      ∀ j, j ≠ i →
        (FTL_forwarded flags name fwdIP id fo s).1.queries.getD j default
          = s.queries.getD j default) := by
  constructor
  · intro hnone
    have hfi : s.queries.findIdx (fun q => q.id == id) = s.queries.length :=
      findIdx_eq_length_of_notfound _ _ (fun a ha => by simpa using hnone a ha)
    simp only [FTL_forwarded]
    rw [hfi, if_neg (lt_irrefl _)]
  · intro i hlen hid hmin
    have hfi : s.queries.findIdx (fun q => q.id == id) = i :=
      findIdx_eq_of_first_match s.queries _ i hlen (by simpa using hid)
        (fun j hj => by simpa using hmin j hj)
    simp only [FTL_forwarded, FTL_forwarded_tail]
    rw [hfi, if_pos hlen]
    have hself : ∀ q3 : queriesData, (s.queries.set i q3).getD i default = q3 :=
      fun q3 => getD_set_self s.queries q3 default i hlen
    have hne : ∀ (q3 : queriesData) (j : Nat), j ≠ i →
        (s.queries.set i q3).getD j default = s.queries.getD j default :=
      fun q3 j hj => getD_set_ne s.queries q3 default i j hj
    split
    case isTrue hcache =>
      refine ⟨?_, ?_⟩
      · simp [-List.getD_eq_getElem?_getD, List.set_set, hself]
      · intro j hj
        simp [-List.getD_eq_getElem?_getD, List.set_set, hne _ j hj]
    case isFalse hcache =>
      by_cases hc : (s.queries.getD i default).complete
      · rw [if_pos (by simpa using hc)]
        refine ⟨?_, ?_⟩
        · simp [-List.getD_eq_getElem?_getD, hself]
        · intro j hj
          simp [-List.getD_eq_getElem?_getD, hne _ j hj]
      · rw [if_neg (by simpa using hc), if_pos (by simpa using hc)]
        refine ⟨?_, ?_⟩
        · simp [-List.getD_eq_getElem?_getD, List.set_set, hself]
        · intro j hj
          simp [-List.getD_eq_getElem?_getD, List.set_set, hne _ j hj]

/-- Witness for the amended C3: in the same two-record state, the
first-match characterization applies at slot 0 and leaves slot 1 alone. -/
theorem C3_forwarded_first_match_or_noop_witness :
    ((FTL_forwarded 0 "a.com" "8.8.8.8" 7 1 c3State).1.queries.getD 0 default).status
        = QUERY_FORWARDED ∧
    ∀ j, j ≠ 0 →
      (FTL_forwarded 0 "a.com" "8.8.8.8" 7 1 c3State).1.queries.getD j default
        = c3State.queries.getD j default :=
  (C3_forwarded_first_match_or_noop 0 "a.com" "8.8.8.8" 7 1 c3State).2 0
    (by decide) (by decide) (fun j hj => absurd hj (Nat.not_lt_zero j))

/-- C4: calling FTL_new_query with the query-type label "query[AAAA]"
while AAAA analysis is disabled nevertheless creates a query record and
increments the queries, unknown and per-type counters.  The skip filter
(line 30 of src/dnsmasq_interface.c) compares the label against
" query[AAAA]" — with a leading space — so it can never match the same
label that the type dispatch at line 83 recognises as "query[AAAA]",
leaving the analyze_AAAA filter dead. -/
theorem C4_disabled_AAAA_still_creates_record :
    ((FTL_new_query { analyze_AAAA := false, privacylevel := 0 } 0 "example.com"
        "192.168.2.9" "query[AAAA]" 1 100 0 0 0 initState).1.counters.queries = 1) ∧
    ((FTL_new_query { analyze_AAAA := false, privacylevel := 0 } 0 "example.com"
        "192.168.2.9" "query[AAAA]" 1 100 0 0 0 initState).1.queries.length = 1) ∧
    ((FTL_new_query { analyze_AAAA := false, privacylevel := 0 } 0 "example.com"
        "192.168.2.9" "query[AAAA]" 1 100 0 0 0 initState).1.counters.unknown = 1) ∧
    ((FTL_new_query { analyze_AAAA := false, privacylevel := 0 } 0 "example.com"
        "192.168.2.9" "query[AAAA]" 1 100 0 0 0 initState).1.counters.querytype
          (TYPE_AAAA - 1) = 1) ∧
    (" query[AAAA]" : String) ≠ "query[AAAA]" := by
  refine ⟨?_, ?_, ?_, ?_, ?_⟩ <;> decide

/-- C9: if the lowercased domain name equals the sentinel "pi.hole", both
FTL_new_query and FTL_cache return without creating a record and without
changing any counter or table: the post-state is exactly the pre-state. -/
theorem C9_pihole_sentinel_skip (cfg : Config) (flags : Nat)
    (name clientIP types : String) (id : Int) (qts : Int) (t dID cID : Nat)
    (cflags : Nat) (addr arg : Option String) (ttl : Nat) (cid : Int) (tc : Nat)
    (s : State) (h : strtolower name = "pi.hole") :
    (FTL_new_query cfg flags name clientIP types id qts t dID cID s).1 = s ∧
    (FTL_cache cflags name addr arg ttl cid tc s).1 = s := by
  constructor
  · simp only [FTL_new_query]
    split
    · rfl
    · rw [if_pos (by simp [h])]
  · simp only [FTL_cache]
    rw [if_pos (by simp [h])]

theorem C9_pihole_sentinel_skip_witness :
    (FTL_new_query { analyze_AAAA := true, privacylevel := 0 } 0 "PI.hole"
        "192.168.2.9" "query[A]" 1 0 0 0 0 initState).1 = initState ∧
    (FTL_cache 64 "PI.hole" none none 0 1 0 initState).1 = initState :=
  C9_pihole_sentinel_skip { analyze_AAAA := true, privacylevel := 0 } 0 "PI.hole"
    "192.168.2.9" "query[A]" 1 0 0 0 0 64 none none 0 1 0 initState (by decide)

theorem save_reply_type_overTime (flags : Nat) (i : Nat) (s : State) :
    (save_reply_type flags i s).overTime = s.overTime :=
  (save_reply_type_frame flags i s).2.1

theorem save_reply_type_cached (flags : Nat) (i : Nat) (s : State) :
    (save_reply_type flags i s).counters.cached = s.counters.cached :=
  (save_reply_type_frame flags i s).2.2.2.1

theorem save_reply_type_blocked (flags : Nat) (i : Nat) (s : State) :
    (save_reply_type flags i s).counters.blocked = s.counters.blocked :=
  (save_reply_type_frame flags i s).2.2.2.2.1

theorem save_reply_type_forwardedqueries (flags : Nat) (i : Nat) (s : State) :
    (save_reply_type flags i s).counters.forwardedqueries
      = s.counters.forwardedqueries :=
  (save_reply_type_frame flags i s).2.2.2.2.2.1

theorem save_reply_type_wildcardblocked (flags : Nat) (i : Nat) (s : State) :
    (save_reply_type flags i s).counters.wildcardblocked
      = s.counters.wildcardblocked :=
  (save_reply_type_frame flags i s).2.2.2.2.2.2.1

theorem storeIP_overTime (i : Nat) (ip : String) (s : State) :
    (storeIP i ip s).overTime = s.overTime :=
  (storeIP_frame i ip s).2.1

/-- Replaying FTL_cache against an already-complete matched record leaves
counters, buckets and domain aggregates untouched (only the record's
status field is overwritten). -/
theorem cache_replay_frame (flags : Nat) (name : String) (addr arg : Option String)
    (ttl : Nat) (id : Int) (t : Nat) (s : State) (i : Nat)
    (hi : i = s.queries.findIdx (fun q => q.id == id))
    (h : i < s.queries.length)
    (hc : (s.queries.getD i default).complete = true) :
    (FTL_cache flags name addr arg ttl id t s).1.counters = s.counters ∧
    (FTL_cache flags name addr arg ttl id t s).1.overTime = s.overTime ∧
    (FTL_cache flags name addr arg ttl id t s).1.domains = s.domains := by
  subst hi
  simp only [FTL_cache, FTL_cache_tail]
  split
  · exact ⟨rfl, rfl, rfl⟩
  split
  case isFalse => exact ⟨rfl, rfl, rfl⟩
  case isTrue => exact ⟨rfl, rfl, rfl⟩

/-- Replaying FTL_reply against an already-complete matched record leaves
buckets and the unknown/cached/blocked/forwardedqueries/wildcardblocked
counters untouched; and unless the forwarded-reply branch runs with a name
matching the record's domain, the whole counters struct is untouched. -/
theorem reply_replay_frame (flags : Nat) (name : String) (addr : Option String)
    (ttl : Nat) (id : Int) (det : Nat) (t : Nat) (s : State) (i : Nat)
    (hi : i = s.queries.findIdx (fun q => q.id == id))
    (h : i < s.queries.length)
    (hc : (s.queries.getD i default).complete = true) :
    (FTL_reply flags name addr ttl id det t s).1.overTime = s.overTime ∧
    (FTL_reply flags name addr ttl id det t s).1.counters.unknown = s.counters.unknown ∧
    (FTL_reply flags name addr ttl id det t s).1.counters.cached = s.counters.cached ∧
    (FTL_reply flags name addr ttl id det t s).1.counters.blocked = s.counters.blocked ∧
    (FTL_reply flags name addr ttl id det t s).1.counters.forwardedqueries
        = s.counters.forwardedqueries ∧
    (FTL_reply flags name addr ttl id det t s).1.counters.wildcardblocked
        = s.counters.wildcardblocked ∧
    ((flags &&& F_CONFIG ≠ 0 ∨ flags &&& F_FORWARD = 0 ∨
        (s.domains (s.queries.getD i default).domainID).domain ≠ name) →
      (FTL_reply flags name addr ttl id det t s).1.counters = s.counters) := by
  subst hi
  simp only [FTL_reply, FTL_reply_config_tail, FTL_reply_forward_tail]
  split
  case isTrue hcfg =>
    exact ⟨rfl, rfl, rfl, rfl, rfl, rfl, fun _ => rfl⟩
  case isFalse hcfg =>
    split
    case isTrue hfwd =>
      split
      case isTrue hname =>
        refine ⟨?_, ?_, ?_, ?_, ?_, ?_, ?_⟩
        · split <;>
            simp [storeIP_overTime, save_reply_type_overTime]
        · split <;>
            simp [storeIP_counters, save_reply_type_unknown]
        · split <;>
            simp [storeIP_counters, save_reply_type_cached]
        · split <;>
            simp [storeIP_counters, save_reply_type_blocked]
        · split <;>
            simp [storeIP_counters, save_reply_type_forwardedqueries]
        · split <;>
            simp [storeIP_counters, save_reply_type_wildcardblocked]
        · intro hdisj
          rcases hdisj with hd | hd | hd
          · exact absurd (by simpa using hcfg) (by simpa using hd)
          · exact absurd (by simpa using hfwd) (by simpa [hd] using hfwd)
          · exact absurd (by simpa using hname) hd
      case isFalse hname => exact ⟨rfl, rfl, rfl, rfl, rfl, rfl, fun _ => rfl⟩
    case isFalse hfwd => exact ⟨rfl, rfl, rfl, rfl, rfl, rfl, fun _ => rfl⟩

/-- C5 (amended): invoking FTL_cache again for an already-complete matched
record changes no counter, bucket or domain aggregate; invoking FTL_reply
again for an already-complete matched record changes no bucket and none of
the unknown/cached/blocked/forwardedqueries/wildcardblocked counters, and
changes no counter at all unless the forwarded-reply branch runs with the
reply name equal to the record's domain — in that one case save_reply_type
still executes and increments the matching per-reply-kind counter even
though the record is complete. -/
theorem C5_replay_complete_record (flags : Nat) (name : String)
    (addr arg : Option String) (ttl : Nat) (id : Int) (det : Nat) (t : Nat)
    (s : State) (i : Nat) (hi : i = s.queries.findIdx (fun q => q.id == id))
    (h : i < s.queries.length)
    (hc : (s.queries.getD i default).complete = true) :
    ((FTL_cache flags name addr arg ttl id t s).1.counters = s.counters ∧
     (FTL_cache flags name addr arg ttl id t s).1.overTime = s.overTime ∧
     (FTL_cache flags name addr arg ttl id t s).1.domains = s.domains) ∧
    ((FTL_reply flags name addr ttl id det t s).1.overTime = s.overTime ∧
     (FTL_reply flags name addr ttl id det t s).1.counters.unknown = s.counters.unknown ∧
     (FTL_reply flags name addr ttl id det t s).1.counters.cached = s.counters.cached ∧
     (FTL_reply flags name addr ttl id det t s).1.counters.blocked = s.counters.blocked ∧
     (FTL_reply flags name addr ttl id det t s).1.counters.forwardedqueries
         = s.counters.forwardedqueries ∧
     (FTL_reply flags name addr ttl id det t s).1.counters.wildcardblocked
         = s.counters.wildcardblocked ∧
     ((flags &&& F_CONFIG ≠ 0 ∨ flags &&& F_FORWARD = 0 ∨
         (s.domains (s.queries.getD i default).domainID).domain ≠ name) →
       (FTL_reply flags name addr ttl id det t s).1.counters = s.counters)) :=
  ⟨cache_replay_frame flags name addr arg ttl id t s i hi h hc,
   reply_replay_frame flags name addr ttl id det t s i hi h hc⟩

/-- A concrete state with one complete record (id 1) whose domain is
"x.com". -/
def c5State : State :=
  { initState with
    counters := { initState.counters with queries := 1 },
    queries := [{ magic := MAGICBYTE, timestamp := 0, type := TYPE_A,
                  status := QUERY_FORWARDED, domainID := 0, clientID := 0,
                  timeidx := 0, db := false, id := 1, complete := true,
                  privacy := false, ttl := 30, forwardID := 0 }],
    domains := fun _ =>
      { domain := "x.com", blockedcount := 0, wildcard := false,
        dnssec := DNSSEC_UNKNOWN, reply := fun _ => REPLY_UNKNOWN,
        IPv4 := none, IPv6 := none } }

/-- C5 counterexample: replaying FTL_reply (forwarded branch, name matching
the record's domain) for an already-complete record DOES change a global
counter — the reply_IP per-reply-kind counter is incremented. -/
theorem C5_counterexample_reply_counter_changes :
    ((c5State.queries.getD 0 default).complete = true) ∧
    (FTL_reply F_FORWARD "x.com" (some "1.2.3.4") 0 1 0 0 c5State).1.counters.reply_IP
      = c5State.counters.reply_IP + 1 := by
  decide

theorem C5_replay_complete_record_witness :
    ((FTL_cache F_CONFIG "x.com" none none 0 1 0 c5State).1.counters
        = c5State.counters ∧
     (FTL_cache F_CONFIG "x.com" none none 0 1 0 c5State).1.overTime
        = c5State.overTime ∧
     (FTL_cache F_CONFIG "x.com" none none 0 1 0 c5State).1.domains
        = c5State.domains) ∧
    ((FTL_reply F_CONFIG "x.com" none 0 1 0 0 c5State).1.overTime = c5State.overTime ∧
     (FTL_reply F_CONFIG "x.com" none 0 1 0 0 c5State).1.counters.unknown
        = c5State.counters.unknown ∧
     (FTL_reply F_CONFIG "x.com" none 0 1 0 0 c5State).1.counters.cached
        = c5State.counters.cached ∧
     (FTL_reply F_CONFIG "x.com" none 0 1 0 0 c5State).1.counters.blocked
        = c5State.counters.blocked ∧
     (FTL_reply F_CONFIG "x.com" none 0 1 0 0 c5State).1.counters.forwardedqueries
        = c5State.counters.forwardedqueries ∧
     (FTL_reply F_CONFIG "x.com" none 0 1 0 0 c5State).1.counters.wildcardblocked
        = c5State.counters.wildcardblocked ∧
     ((F_CONFIG &&& F_CONFIG ≠ 0 ∨ F_CONFIG &&& F_FORWARD = 0 ∨
         (c5State.domains (c5State.queries.getD 0 default).domainID).domain ≠ "x.com") →
       (FTL_reply F_CONFIG "x.com" none 0 1 0 0 c5State).1.counters
         = c5State.counters)) :=
  C5_replay_complete_record F_CONFIG "x.com" none none 0 1 0 0 c5State 0
    (by decide) (by decide) (by decide)

/-- C6 (amended): when FTL_forwarded matches an already-complete record
whose status is not CACHE, it overwrites the record's status with
FORWARDED but does NOT update the record's forward-destination reference
(the early return precedes the findForwardID lookup), and it changes no
counter, bucket or domain aggregate: the post-state differs from the
pre-state only in that one record's status field.  (If the status is
CACHE, the cache-reversal path of C2 runs instead and counters do
change.) -/
theorem C6_forwarded_complete_status_only (flags : Nat) (name fwdIP : String)
    (id fo : Int) (s : State) (i : Nat)
    (hi : i = s.queries.findIdx (fun q => q.id == id))
    (h : i < s.queries.length)
    (hc : (s.queries.getD i default).complete = true)
    (hst : (s.queries.getD i default).status ≠ QUERY_CACHE) :
    (FTL_forwarded flags name fwdIP id fo s).1
      = { s with
          queries := s.queries.set i
            ({ s.queries.getD i default with status := QUERY_FORWARDED }) } := by
  subst hi
  simp only [FTL_forwarded, FTL_forwarded_tail]
  split
  case isFalse h' => exact absurd h h'
  case isTrue h' =>
    split
    case isTrue hcache => exact absurd (by simpa using hcache) hst
    case isFalse hcache => rfl

/-- A concrete state with one complete FORWARDED record (id 3) whose
stored forward destination is 0. -/
def c6State : State :=
  { initState with
    counters := { initState.counters with queries := 1, forwardedqueries := 1 },
    queries := [{ magic := MAGICBYTE, timestamp := 0, type := TYPE_A,
                  status := QUERY_FORWARDED, domainID := 0, clientID := 0,
                  timeidx := 0, db := false, id := 3, complete := true,
                  privacy := false, ttl := 30, forwardID := 0 }] }

/-- A concrete state with one complete CACHE record (id 4). -/
def c6StateCache : State :=
  { initState with
    counters := { initState.counters with queries := 1, cached := 1 },
    queries := [{ magic := MAGICBYTE, timestamp := 0, type := TYPE_A,
                  status := QUERY_CACHE, domainID := 0, clientID := 0,
                  timeidx := 0, db := false, id := 4, complete := true,
                  privacy := false, ttl := 30, forwardID := 0 }] }

/-- C6 counterexample: (a) for a complete non-CACHE record, FTL_forwarded
does NOT update the forward-destination reference — it stays 0 although
findForwardID returned 5; (b) for a complete CACHE record, counters DO
change (forwardedqueries goes from 0 to 1 and cached from 1 to 0). -/
theorem C6_counterexample :
    (((FTL_forwarded 0 "a.com" "8.8.4.4" 3 5 c6State).1.queries.getD 0 default).forwardID
        = 0 ∧
     ((FTL_forwarded 0 "a.com" "8.8.4.4" 3 5 c6State).1.queries.getD 0 default).complete
        = true) ∧
    ((FTL_forwarded 0 "a.com" "8.8.4.4" 4 5 c6StateCache).1.counters.forwardedqueries
        = 1 ∧
     c6StateCache.counters.forwardedqueries = 0 ∧
     (FTL_forwarded 0 "a.com" "8.8.4.4" 4 5 c6StateCache).1.counters.cached = 0 ∧
     c6StateCache.counters.cached = 1) := by
  decide

theorem C6_forwarded_complete_status_only_witness :
    (FTL_forwarded 0 "a.com" "8.8.4.4" 3 5 c6State).1
      = { c6State with
          queries := c6State.queries.set 0
            ({ c6State.queries.getD 0 default with status := QUERY_FORWARDED }) } :=
  C6_forwarded_complete_status_only 0 "a.com" "8.8.4.4" 3 5 c6State 0
    (by decide) (by decide) (by decide) (by decide)

/-- Reply classification in the spec's words (§4.4): negative+NXDOMAIN →
NXDOMAIN; negative other → NODATA; alias (CNAME) flag → CNAME; else → IP.
Stated separately from save_reply_type so the code's behaviour can be
compared against it. -/
def specReplyClassification (flags : Nat) : Nat :=
  if flags &&& F_NEG != 0 then
    if flags &&& F_NXDOMAIN != 0 then REPLY_NXDOMAIN else REPLY_NODATA
  else if flags &&& F_CNAME != 0 then REPLY_CNAME
  else REPLY_IP

/-- C7: save_reply_type is a pure function of the flag bitset and the
query's type slot (TYPE_A → slot 0, anything else, in particular
TYPE_AAAA → slot 1): it writes the spec classification (negative+NXDOMAIN
→ NXDOMAIN, negative → NODATA, CNAME → CNAME, else IP) into the domain's
per-slot last classification, leaves the other slot and all other domains
untouched, increments exactly the matching global reply-kind counter, and
touches nothing else (queries, buckets, all other counters unchanged).
Purity/determinism is inherent: it is a function of its arguments. -/
theorem C7_save_reply_type_classification (flags : Nat) (i : Nat) (s : State) :
    ((save_reply_type flags i s).domains (s.queries.getD i default).domainID).reply
        (if (s.queries.getD i default).type = TYPE_A then 0 else 1)
      = specReplyClassification flags ∧
    (∀ sl, sl ≠ (if (s.queries.getD i default).type = TYPE_A then 0 else 1) →
      ((save_reply_type flags i s).domains (s.queries.getD i default).domainID).reply sl
        = (s.domains (s.queries.getD i default).domainID).reply sl) ∧
    (∀ d, d ≠ (s.queries.getD i default).domainID →
      (save_reply_type flags i s).domains d = s.domains d) ∧
    (save_reply_type flags i s).counters.reply_NXDOMAIN
      = s.counters.reply_NXDOMAIN
        + (if specReplyClassification flags = REPLY_NXDOMAIN then 1 else 0) ∧
    (save_reply_type flags i s).counters.reply_NODATA
      = s.counters.reply_NODATA
        + (if specReplyClassification flags = REPLY_NODATA then 1 else 0) ∧
    (save_reply_type flags i s).counters.reply_CNAME
      = s.counters.reply_CNAME
        + (if specReplyClassification flags = REPLY_CNAME then 1 else 0) ∧
    (save_reply_type flags i s).counters.reply_IP
      = s.counters.reply_IP
        + (if specReplyClassification flags = REPLY_IP then 1 else 0) ∧
    (save_reply_type flags i s).queries = s.queries ∧
    (save_reply_type flags i s).overTime = s.overTime ∧
    (save_reply_type flags i s).counters.unknown = s.counters.unknown ∧
    (save_reply_type flags i s).counters.cached = s.counters.cached ∧
    (save_reply_type flags i s).counters.blocked = s.counters.blocked ∧
    (save_reply_type flags i s).counters.forwardedqueries
        = s.counters.forwardedqueries ∧
    (save_reply_type flags i s).counters.wildcardblocked
        = s.counters.wildcardblocked := by
  have hslot : (if ((s.queries.getD i default).type == TYPE_A) = true
      then (0 : Nat) else 1)
      = (if (s.queries.getD i default).type = TYPE_A then 0 else 1) := by
    by_cases hT : (s.queries.getD i default).type = TYPE_A <;> simp [hT]
  by_cases h1 : (flags &&& F_NEG != 0) = true
  · by_cases h2 : (flags &&& F_NXDOMAIN != 0) = true
    · have hcls : specReplyClassification flags = REPLY_NXDOMAIN := by
        simp [specReplyClassification, h1, h2]
      simp only [save_reply_type]
      rw [if_pos h1, if_pos h2, hcls]
      refine ⟨?_, fun sl hsl => ?_, fun d hd => ?_, ?_, ?_, ?_, ?_,
        rfl, rfl, rfl, rfl, rfl, rfl, rfl⟩
      · rw [hslot]; simp [-List.getD_eq_getElem?_getD, updAt]
      · rw [hslot]; simp [-List.getD_eq_getElem?_getD, updAt, hsl]
      · simp [-List.getD_eq_getElem?_getD, updAt, hd]
      all_goals simp [REPLY_NXDOMAIN, REPLY_NODATA, REPLY_CNAME, REPLY_IP]
    · have hcls : specReplyClassification flags = REPLY_NODATA := by
        simp [specReplyClassification, h1, h2]
      simp only [save_reply_type]
      rw [if_pos h1, if_neg h2, hcls]
      refine ⟨?_, fun sl hsl => ?_, fun d hd => ?_, ?_, ?_, ?_, ?_,
        rfl, rfl, rfl, rfl, rfl, rfl, rfl⟩
      · rw [hslot]; simp [-List.getD_eq_getElem?_getD, updAt]
      · rw [hslot]; simp [-List.getD_eq_getElem?_getD, updAt, hsl]
      · simp [-List.getD_eq_getElem?_getD, updAt, hd]
      all_goals simp [REPLY_NXDOMAIN, REPLY_NODATA, REPLY_CNAME, REPLY_IP]
  · by_cases h3 : (flags &&& F_CNAME != 0) = true
    · have hcls : specReplyClassification flags = REPLY_CNAME := by
        simp [specReplyClassification, h1, h3]
      simp only [save_reply_type]
      rw [if_neg h1, if_pos h3, hcls]
      refine ⟨?_, fun sl hsl => ?_, fun d hd => ?_, ?_, ?_, ?_, ?_,
        rfl, rfl, rfl, rfl, rfl, rfl, rfl⟩
      · rw [hslot]; simp [-List.getD_eq_getElem?_getD, updAt]
      · rw [hslot]; simp [-List.getD_eq_getElem?_getD, updAt, hsl]
      · simp [-List.getD_eq_getElem?_getD, updAt, hd]
      all_goals simp [REPLY_NXDOMAIN, REPLY_NODATA, REPLY_CNAME, REPLY_IP]
    · have hcls : specReplyClassification flags = REPLY_IP := by
        simp [specReplyClassification, h1, h3]
      simp only [save_reply_type]
      rw [if_neg h1, if_neg h3, hcls]
      refine ⟨?_, fun sl hsl => ?_, fun d hd => ?_, ?_, ?_, ?_, ?_,
        rfl, rfl, rfl, rfl, rfl, rfl, rfl⟩
      · rw [hslot]; simp [-List.getD_eq_getElem?_getD, updAt]
      · rw [hslot]; simp [-List.getD_eq_getElem?_getD, updAt, hsl]
      · simp [-List.getD_eq_getElem?_getD, updAt, hd]
      all_goals simp [REPLY_NXDOMAIN, REPLY_NODATA, REPLY_CNAME, REPLY_IP]

theorem C7_save_reply_type_classification_witness :
    ((save_reply_type F_NEG 0 c5State).domains
        (c5State.queries.getD 0 default).domainID).reply
        (if (c5State.queries.getD 0 default).type = TYPE_A then 0 else 1)
      = specReplyClassification F_NEG ∧
    (save_reply_type F_NEG 0 c5State).domains 7 = c5State.domains 7 :=
  ⟨(C7_save_reply_type_classification F_NEG 0 c5State).1,
   (C7_save_reply_type_classification F_NEG 0 c5State).2.2.1 7 (by decide)⟩

/-- Lock-discipline check over an action trace, carrying the current lock
depth: a write or an unlock at depth 0 is a violation, and the trace must
end with the lock released. -/
def guardedFrom : Nat → List Act → Bool
  | d, [] => d == 0
  | d, Act.lock :: r => guardedFrom (d + 1) r
  | d, Act.unlock :: r => d != 0 && guardedFrom (d - 1) r
  | d, Act.write :: r => d != 0 && guardedFrom d r

/-- A trace is guarded when, starting unlocked, every shared-state write
happens with the lock held and the handler exits with the lock released. -/
def guardedTrace (t : List Act) : Bool := guardedFrom 0 t

/-- C8 (amended): every event handler except FTL_dnsmasq_reload acquires
the lock on entry before touching shared state, holds it across every
write, and releases it on every exit path, for all inputs and states.
(FTL_dnsmasq_reload violates this: see the counterexample.) -/
theorem C8_handlers_guarded_except_reload :
    (∀ cfg flags name clientIP types id qts t dID cID s,
      guardedTrace (FTL_new_query cfg flags name clientIP types id qts t dID cID s).2
        = true) ∧
    (∀ flags name fwdIP id fo s,
      guardedTrace (FTL_forwarded flags name fwdIP id fo s).2 = true) ∧
    (∀ flags name addr ttl id det t s,
      guardedTrace (FTL_reply flags name addr ttl id det t s).2 = true) ∧
    (∀ flags name addr arg ttl id t s,
      guardedTrace (FTL_cache flags name addr arg ttl id t s).2 = true) ∧
    (∀ st id s, guardedTrace (FTL_dnssec st id s).2 = true) ∧
    (∀ fn c s, guardedTrace (FTL_read_hosts fn c s).2 = true) := by
  refine ⟨?_, ?_, ?_, ?_, ?_, ?_⟩
  · intro cfg flags name clientIP types id qts t dID cID s
    simp only [FTL_new_query]
    repeat' split
    all_goals rfl
  · intro flags name fwdIP id fo s
    simp only [FTL_forwarded, FTL_forwarded_tail]
    repeat' split
    all_goals rfl
  · intro flags name addr ttl id det t s
    simp only [FTL_reply, FTL_reply_config_tail, FTL_reply_forward_tail,
      finish_answer]
    repeat' split
    all_goals rfl
  · intro flags name addr arg ttl id t s
    simp only [FTL_cache]
    repeat' split
    all_goals try rfl
    all_goals
      simp only [FTL_cache_tail, finish_answer]
      repeat' split
      all_goals rfl
  · intro st id s
    simp only [FTL_dnssec]
    repeat' split
    all_goals rfl
  · intro fn c s
    simp only [FTL_read_hosts]
    repeat' split
    all_goals rfl

/-- C8 counterexample: FTL_dnsmasq_reload resets the gravity counter — a
shared-state write — without ever acquiring the lock, so its trace is not
guarded. -/
theorem C8_counterexample_reload_unguarded :
    guardedTrace (FTL_dnsmasq_reload initState).2 = false := by
  decide

/-- C10: flagnames has exactly 28 entries, while print_flags iterates over
all 32 bit positions of the flag word and reads flagnames[i] for every set
bit i: an access is out of bounds exactly when a bit at position 28, 29,
30 or 31 is set; if every set bit is below 28, every access is in
bounds. -/
theorem C10_print_flags_oob_iff_high_bit :
    flagnames.length = 28 ∧
    ∀ flags : Nat, print_flags_oob flags = true ↔
      (flags &&& (1 <<< 28) ≠ 0 ∨ flags &&& (1 <<< 29) ≠ 0 ∨
       flags &&& (1 <<< 30) ≠ 0 ∨ flags &&& (1 <<< 31) ≠ 0) := by
  have hlen : flagnames.length = 28 := by decide
  refine ⟨hlen, fun flags => ?_⟩
  rw [print_flags_oob, List.any_eq_true]
  constructor
  · rintro ⟨i, hi, hoob⟩
    rw [print_flags_accesses, List.mem_filter, List.mem_range] at hi
    have h28 : 28 ≤ i := by
      rw [hlen] at hoob
      simpa using hoob
    have h32 : i < 32 := hi.1
    have hbit : flags &&& (1 <<< i) ≠ 0 := by simpa using hi.2
    interval_cases i
    · exact Or.inl hbit
    · exact Or.inr (Or.inl hbit)
    · exact Or.inr (Or.inr (Or.inl hbit))
    · exact Or.inr (Or.inr (Or.inr hbit))
  · intro hb
    have hmk : ∀ i : Nat, i < 32 → 28 ≤ i → flags &&& (1 <<< i) ≠ 0 →
        ∃ x ∈ print_flags_accesses flags, decide (flagnames.length ≤ x) = true := by
      intro i h32 h28 hbit
      refine ⟨i, ?_, ?_⟩
      · rw [print_flags_accesses, List.mem_filter, List.mem_range]
        exact ⟨h32, by simpa using hbit⟩
      · rw [hlen]
        exact decide_eq_true h28
    rcases hb with hbit | hbit | hbit | hbit
    · exact hmk 28 (by omega) (by omega) hbit
    · exact hmk 29 (by omega) (by omega) hbit
    · exact hmk 30 (by omega) (by omega) hbit
    · exact hmk 31 (by omega) (by omega) hbit

theorem C10_print_flags_oob_iff_high_bit_witness :
    print_flags_oob (1 <<< 28) = true ∧ print_flags_oob (F_NEG ||| F_NXDOMAIN) = false :=
  ⟨(C10_print_flags_oob_iff_high_bit.2 (1 <<< 28)).mpr (Or.inl (by decide)),
   by decide⟩
